import Mathlib

/-!
Shallow embedding of the toggl2slack notifier (Go, `src/main.go`):
per-user Slack payloads, default-filling (`reverseMergeDefault`), the
notification delivery function (`notify`), the dispatch callbacks
(`onStart`/`onStop` in `start`), JSON (de)serialization of the
configuration (`loadConfig`, `generateConfig`), and the user lookup
keyed by `strconv.Itoa(a.UserId)`.
-/

namespace Toggl2Slack

/-- Embeds Go struct `Payload` (src/main.go:53-59): channel, icon_emoji,
icon_url, username, text, all Go strings (zero value `""`). -/
structure Payload where
  channel : String
  iconEmoji : String
  iconUrl : String
  username : String
  text : String
deriving DecidableEq, Repr

/-- The fixed built-in icon URL from src/main.go:69. -/
def defaultIconUrl : String :=
  "http://blog.toggl.com/wp-content/uploads/2015/04/toggl-button-light.png"

/-- The message of the fatal error raised on dual icon fields (src/main.go:72). -/
def dualIconMsg : String := "Do not specify both icon_emoji and icon_url"

/-- Embeds `(p *Payload) reverseMergeDefault()` (src/main.go:61-74).
The Go method mutates its receiver and may `panic`; here it returns the
updated payload, with `none` standing for the panic on dual icon fields.
The order matches the source: defaults first, then the dual-icon check. -/
def reverseMergeDefault (p : Payload) : Option Payload :=
  let p1 := if p.channel = "" then { p with channel := "#general" } else p
  let p2 := if p1.username = "" then { p1 with username := "Toggl" } else p1
  let p3 :=
    if p2.iconEmoji = "" ∧ p2.iconUrl = "" then { p2 with iconUrl := defaultIconUrl }
    else p2
  if p3.iconEmoji ≠ "" ∧ p3.iconUrl ≠ "" then none else some p3

/-- Embeds the fields of `toggl.Activity` this program reads: the owning
user id (`a.UserId`, a Go `int`) and the descriptive fields passed to
templates, represented by the description. -/
structure Activity where
  userId : Int
  description : String
deriving DecidableEq, Repr

/-- Worker for `natDigits`, structurally recursive on a fuel bound so
that it evaluates by kernel reduction; any fuel above the argument
gives the same digits (`natDigitsGo_congr`). -/
def natDigitsGo : Nat → Nat → List Char
  | 0, _ => []
  | fuel + 1, n =>
    if n < 10 then [Nat.digitChar n]
    else natDigitsGo fuel (n / 10) ++ [Nat.digitChar (n % 10)]

/-- Decimal digit list of a natural number, most significant first:
the digits produced by Go's `strconv.Itoa` for a non-negative value. -/
def natDigits (n : Nat) : List Char := natDigitsGo (n + 1) n

/-- Embeds Go `strconv.Itoa` on a Go `int`: decimal representation,
with a leading minus sign for negative values. -/
def itoa (i : Int) : String :=
  if i < 0 then "-" ++ String.mk (natDigits i.natAbs)
  else String.mk (natDigits i.toNat)

/-- A JSON value, the level at which Go's `encoding/json` marshals and
unmarshals the structs of this program (only strings, integers and
objects occur). Objects keep an explicit field order. -/
inductive Json where
  | str (s : String)
  | num (n : Int)
  | obj (fields : List (String × Json))

/-- Field lookup in a JSON object, first occurrence wins. -/
def lookupField (fields : List (String × Json)) (k : String) : Option Json :=
  match fields with
  | [] => none
  | (k', v) :: t => if k' = k then some v else lookupField t k

/-- Embeds `json.Marshal(p)` for Go struct `Payload` (src/main.go:53-59):
fields in struct order; `channel` and `username` have no `omitempty`;
`icon_emoji`, `icon_url` and `text` carry `omitempty` and are dropped
when they are the empty string. -/
def marshalPayloadFields (p : Payload) : List (String × Json) :=
  [("channel", Json.str p.channel)]
    ++ (if p.iconEmoji = "" then [] else [("icon_emoji", Json.str p.iconEmoji)])
    ++ (if p.iconUrl = "" then [] else [("icon_url", Json.str p.iconUrl)])
    ++ [("username", Json.str p.username)]
    ++ (if p.text = "" then [] else [("text", Json.str p.text)])

/-- The serialized outbound wire message as a JSON value. -/
def marshalPayload (p : Payload) : Json :=
  Json.obj (marshalPayloadFields p)

/-- The keys of the serialized wire message of a payload. -/
def wireKeys (p : Payload) : List String :=
  (marshalPayloadFields p).map Prod.fst

/-- Embeds Go struct `Templates` (src/main.go:28-31) after JSON decoding:
each parsed `*template.Template` is represented by its source string,
`none` standing for a nil pointer. -/
structure Templates where
  started : Option String
  finished : Option String
deriving DecidableEq, Repr

/-- Embeds Go struct `Config` (src/main.go:19-26). The `users` map is an
association list from user-id strings to payloads. -/
structure Config where
  interval : Int
  togglToken : String
  dashboardId : Int
  webhookURL : String
  users : List (String × Payload)
  templates : Templates
deriving DecidableEq, Repr

/-- Embeds `Templates.MarshalJSON` (src/main.go:33-41): when both
templates are nil it emits the default template strings (Go sorts the
map keys, `finished` before `started`); otherwise it returns empty
bytes, which is not valid JSON and makes the enclosing marshal fail
(`none`). -/
def marshalTemplates (t : Templates) : Option Json :=
  if t.started = none ∧ t.finished = none then
    some (Json.obj
      [("finished", Json.str "finished {{.Description}}"),
       ("started", Json.str "started {{.Description}}")])
  else none

/-- Embeds `json.Marshal` of a `Config` value (used via `MarshalIndent`
in `generateConfig`, src/main.go:143): struct fields in order, the
`users` map with each payload marshalled, `templates` through
`Templates.MarshalJSON`. -/
def marshalConfig (c : Config) : Option Json :=
  (marshalTemplates c.templates).map fun tj =>
    Json.obj
      [("interval", Json.num c.interval),
       ("toggl_token", Json.str c.togglToken),
       ("dashboard_id", Json.num c.dashboardId),
       ("webhook_url", Json.str c.webhookURL),
       ("users", Json.obj (c.users.map fun kv => (kv.1, marshalPayload kv.2))),
       ("templates", tj)]

/-- A string-typed field of a JSON object: missing means the Go zero
value `""`; a value of another type is an unmarshal type error. -/
def strField (fields : List (String × Json)) (k : String) : Option String :=
  match lookupField fields k with
  | none => some ""
  | some (Json.str s) => some s
  | some _ => none

/-- An integer-typed field of a JSON object: missing means the Go zero
value `0`; a value of another type is an unmarshal type error. -/
def intField (fields : List (String × Json)) (k : String) : Option Int :=
  match lookupField fields k with
  | none => some 0
  | some (Json.num n) => some n
  | some _ => none

/-- Embeds `json.Unmarshal` into a Go `Payload` struct: known keys by
tag, unknown keys ignored, missing keys left at the zero value. -/
def unmarshalPayload (j : Json) : Option Payload :=
  match j with
  | Json.obj f => do
    let channel ← strField f "channel"
    let iconEmoji ← strField f "icon_emoji"
    let iconUrl ← strField f "icon_url"
    let username ← strField f "username"
    let text ← strField f "text"
    pure ⟨channel, iconEmoji, iconUrl, username, text⟩
  | _ => none

/-- Embeds `Templates.UnmarshalJSON` (src/main.go:43-51): the value must
be an object of strings (decoded into `map[string]string`); the
`started` and `finished` entries (missing key gives `""`) are parsed
into templates, represented here by their source strings. -/
def unmarshalTemplates (j : Json) : Option Templates :=
  match j with
  | Json.obj f =>
    if f.all fun kv => match kv.2 with | Json.str _ => true | _ => false then do
      let s ← strField f "started"
      let fin ← strField f "finished"
      pure ⟨some s, some fin⟩
    else none
  | _ => none

/-- Embeds `json.Unmarshal` into a Go `Config` struct, as performed by
`loadConfig` (src/main.go:76-92). -/
def unmarshalConfig (j : Json) : Option Config :=
  match j with
  | Json.obj f => do
    let interval ← intField f "interval"
    let togglToken ← strField f "toggl_token"
    let dashboardId ← intField f "dashboard_id"
    let webhookURL ← strField f "webhook_url"
    let users ←
      match lookupField f "users" with
      | none => some []
      | some (Json.obj uf) =>
        uf.mapM fun kv => do
          let p ← unmarshalPayload kv.2
          pure (kv.1, p)
      | some _ => none
    let templates ←
      match lookupField f "templates" with
      | none => some ⟨none, none⟩
      | some tj => unmarshalTemplates tj
    pure ⟨interval, togglToken, dashboardId, webhookURL, users, templates⟩
  | _ => none

/-- Embeds `loadConfig` (src/main.go:76-92) after the file has been
read: parsing the file's JSON into a `Config`. -/
def loadConfig (j : Json) : Option Config := unmarshalConfig j

/-- The default configuration written by `generateConfig`
(src/main.go:136-142). -/
def defaultConfig : Config :=
  { interval := 60
    togglToken := "YOUR_TOGGL_TOKEN"
    dashboardId := 0
    webhookURL := "https://hooks.slack.com/services/..."
    users := [("TOGGL_USER_ID", ⟨"#general", "", "", "toggl2slack", ""⟩)]
    templates := ⟨none, none⟩ }

/-- Embeds `generateConfig` (src/main.go:133-155): if no file exists at
the target path, marshal the default config and write it (`.ok` with
the written JSON); if a file already exists, fail with the error and
write nothing. -/
def generateConfig (fileExists : Bool) : Except String Json :=
  if fileExists then Except.error "config.json already exists"
  else
    match marshalConfig defaultConfig with
    | some j => Except.ok j
    | none => Except.error "marshal error"

/-- The outcome of attempting the outbound HTTP POST in `notify`
(src/main.go:113): either the request fails with an error, or it
completes with a response carrying a status code. -/
inductive HttpOutcome where
  | netError (msg : String)
  | response (status : Nat)

/-- What a call to `notify` (src/main.go:94-122) does: panic on dual
icon fields, return an error (network-level failure), or complete
having delivered the serialized wire message and observed a response
status. Per the source, a completed response returns the nil error
whatever the status is. -/
inductive NotifyOut where
  | panicked (msg : String)
  | failed (msg : String)
  | delivered (wire : Json) (status : Nat)

/-- Embeds `notify(c, t, a, p)` (src/main.go:94-122): the template is
rendered into the text field of the by-value copy `p`, defaults are
merged (`reverseMergeDefault`, which may panic), the payload is
serialized and POSTed to `c.WebhookURL`; the function returns the
error of `client.Do` — which is nil whenever a response arrives,
regardless of its status code. -/
def notify (c : Config) (render : Activity → String) (a : Activity)
    (p : Payload) (o : HttpOutcome) : NotifyOut :=
  let pt := { p with text := render a }
  match reverseMergeDefault pt with
  | none => NotifyOut.panicked dualIconMsg
  | some q =>
    match o with
    | HttpOutcome.netError m => NotifyOut.failed m
    | HttpOutcome.response st => NotifyOut.delivered (marshalPayload q) st

/-- Whether a `notify` outcome is a failure returned to the caller. -/
def isFailed : NotifyOut → Bool
  | NotifyOut.failed _ => true
  | _ => false

/-- The response status of a completed (successful) `notify` call. -/
def deliveredStatus : NotifyOut → Option Nat
  | NotifyOut.delivered _ st => some st
  | _ => none

/-- The user lookup of the dispatch callbacks (src/main.go:166,174):
`config.Users[strconv.Itoa(a.UserId)]`, first match in the
association list. -/
def lookupUsers (l : List (String × Payload)) (k : String) : Option Payload :=
  match l with
  | [] => none
  | (k', v) :: t => if k' = k then some v else lookupUsers t k

/-- Observable effects of one dispatch callback invocation: the payloads
passed to `notify` (in order), the wire messages actually delivered
with their response statuses, the error lines logged, and whether the
process panicked. -/
structure DispatchOut where
  calls : List Payload
  sent : List (Json × Nat)
  errLogs : List String
  panicked : Bool

/-- The no-op dispatch outcome: no notify call, no HTTP delivery, no
error log. -/
def noDispatch : DispatchOut := ⟨[], [], [], false⟩

/-- Embeds the `onStart` callback (src/main.go:165-172): look up the
user's payload under key `strconv.Itoa(a.UserId)`; if absent do
nothing; if present call `notify` once with the started template and
log the returned error when non-nil. The second component is the
config after the callback returns. -/
def onStart (render : Activity → String) (c : Config) (a : Activity)
    (o : HttpOutcome) : DispatchOut × Config :=
  match lookupUsers c.users (itoa a.userId) with
  | none => (noDispatch, c)
  | some p =>
    match notify c render a p o with
    | NotifyOut.panicked _ => (⟨[p], [], [], true⟩, c)
    | NotifyOut.failed m => (⟨[p], [], ["ERROR[toggl2slack]: " ++ m], false⟩, c)
    | NotifyOut.delivered w st => (⟨[p], [(w, st)], [], false⟩, c)

/-- Embeds the `onStop` callback (src/main.go:173-180): identical to
`onStart` but with the finished template. -/
def onStop (render : Activity → String) (c : Config) (a : Activity)
    (o : HttpOutcome) : DispatchOut × Config :=
  match lookupUsers c.users (itoa a.userId) with
  | none => (noDispatch, c)
  | some p =>
    match notify c render a p o with
    | NotifyOut.panicked _ => (⟨[p], [], [], true⟩, c)
    | NotifyOut.failed m => (⟨[p], [], ["ERROR[toggl2slack]: " ++ m], false⟩, c)
    | NotifyOut.delivered w st => (⟨[p], [(w, st)], [], false⟩, c)

/-- A concrete stored payload for user 7, used as a test fixture. -/
def sampleUserPayload : Payload := ⟨"#dev", "", "", "alice", "stale"⟩

/-- A concrete configuration with one user keyed `"7"`, used as a test
fixture. -/
def sampleConfig : Config :=
  { interval := 60
    togglToken := "tok"
    dashboardId := 2
    webhookURL := "https://hooks.slack.com/services/T/B/x"
    users := [("7", sampleUserPayload)]
    templates := ⟨some "started {{.Description}}", some "finished {{.Description}}"⟩ }

/-- The sample configuration with an empty users mapping. -/
def emptyUsersConfig : Config := { sampleConfig with users := [] }

/-- The sample configuration whose only users key has a leading zero. -/
def leadingZeroConfig : Config := { sampleConfig with users := [("01", sampleUserPayload)] }

/-- A concrete started-template rendering, standing for
`t.Execute(buf, a)` of the default started template. -/
def sampleRender (a : Activity) : String := "started " ++ a.description

theorem natDigitsGo_congr :
    ∀ f1 f2 n, n < f1 → n < f2 → natDigitsGo f1 n = natDigitsGo f2 n := by
  intro f1
  induction f1 with
  | zero => omega
  | succ f ih =>
    intro f2 n h1 h2
    cases f2 with
    | zero => omega
    | succ g =>
      simp only [natDigitsGo]
      split
      · rfl
      · have hlt : n / 10 < n := Nat.div_lt_self (by omega) (by omega)
        rw [ih g (n / 10) (by omega) (by omega)]

/-- The recursion equation of `natDigits`. -/
theorem natDigits_eq (n : Nat) :
    natDigits n =
      if n < 10 then [Nat.digitChar n]
      else natDigits (n / 10) ++ [Nat.digitChar (n % 10)] := by
  show natDigitsGo (n + 1) n = _
  simp only [natDigitsGo]
  split
  · rfl
  · have hlt : n / 10 < n := Nat.div_lt_self (by omega) (by omega)
    rw [natDigitsGo_congr n (n / 10 + 1) (n / 10) (by omega) (by omega)]
    rfl

theorem natDigits_ne_nil (n : Nat) : natDigits n ≠ [] := by
  rw [natDigits_eq]
  split <;> simp

theorem digitChar_eq_zero_iff (n : Nat) (h : n < 10) :
    Nat.digitChar n = '0' → n = 0 := by
  interval_cases n <;> revert h <;> decide

theorem digitChar_isDigit (n : Nat) (h : n < 10) :
    (Nat.digitChar n).isDigit = true := by
  interval_cases n <;> decide

theorem natDigits_no_leading_zero :
    ∀ n l, natDigits n = '0' :: l → n = 0 ∧ l = [] := by
  intro n
  induction n using Nat.strong_induction_on with
  | _ n ih =>
    intro l h
    rw [natDigits_eq] at h
    split at h
    case isTrue h10 =>
      simp only [List.cons.injEq] at h
      exact ⟨digitChar_eq_zero_iff n h10 h.1, h.2.symm⟩
    case isFalse h10 =>
      have hne := natDigits_ne_nil (n / 10)
      cases e : natDigits (n / 10) with
      | nil => exact absurd e hne
      | cons c t =>
        rw [e] at h
        simp only [List.cons_append, List.cons.injEq] at h
        have hz := ih (n / 10) (Nat.div_lt_self (by omega) (by omega)) t
          (by rw [e, h.1])
        omega

theorem natDigits_mem_isDigit :
    ∀ n c, c ∈ natDigits n → c.isDigit = true := by
  intro n
  induction n using Nat.strong_induction_on with
  | _ n ih =>
    intro c hc
    rw [natDigits_eq] at hc
    split at hc
    case isTrue h10 =>
      simp only [List.mem_singleton] at hc
      exact hc ▸ digitChar_isDigit n h10
    case isFalse h10 =>
      rcases List.mem_append.mp hc with hm | hm
      · exact ih (n / 10) (Nat.div_lt_self (by omega) (by omega)) c hm
      · simp only [List.mem_singleton] at hm
        exact hm ▸ digitChar_isDigit (n % 10) (Nat.mod_lt _ (by omega))

theorem itoa_ne_leading_zero (i : Int) : itoa i ≠ "01" := by
  intro h
  unfold itoa at h
  split at h
  · have hd := congrArg String.data h
    simp only [String.data_append, List.cons_append, List.nil_append,
      List.cons.injEq] at hd
    exact absurd hd.1 (by decide)
  · have hd := congrArg String.data h
    have h2 : ("01" : String).data = ['0', '1'] := rfl
    simp only [h2] at hd
    have := natDigits_no_leading_zero i.toNat ['1'] hd
    simp at this

theorem itoa_ne_alpha (i : Int) : itoa i ≠ "alice" := by
  intro h
  unfold itoa at h
  split at h
  · have hd := congrArg String.data h
    simp only [String.data_append, List.cons_append, List.nil_append,
      List.cons.injEq] at hd
    exact absurd hd.1 (by decide)
  · have hd := congrArg String.data h
    have h2 : ("alice" : String).data = ['a', 'l', 'i', 'c', 'e'] := rfl
    simp only [h2] at hd
    have hmem : ('a' : Char) ∈ natDigits i.toNat := by
      rw [hd]; exact List.mem_cons_self _ _
    have := natDigits_mem_isDigit i.toNat 'a' hmem
    exact absurd this (by decide)

/-- C2: a Payload with both icon fields non-empty fails fast when
finalized: `reverseMergeDefault` hits the fatal error (no result), and
`notify` on such a payload panics instead of delivering; a payload with
at most one icon field set is never rejected by this check. -/
theorem dual_icon_fails_fast (p : Payload) :
    (p.iconEmoji ≠ "" → p.iconUrl ≠ "" →
      reverseMergeDefault p = none ∧
      ∀ c render a o, notify c render a p o = NotifyOut.panicked dualIconMsg) ∧
    ((p.iconEmoji = "" ∨ p.iconUrl = "") → (reverseMergeDefault p).isSome = true) := by
  obtain ⟨ch, ie, iu, un, tx⟩ := p
  by_cases hc : ch = "" <;> by_cases hu : un = "" <;>
    by_cases he : ie = "" <;> by_cases hl : iu = "" <;>
    constructor <;>
    simp_all [reverseMergeDefault, notify, defaultIconUrl]

theorem dual_icon_fails_fast_witness :
    reverseMergeDefault ⟨"", "smile", "http://example.com/i.png", "", ""⟩ = none ∧
    (reverseMergeDefault ⟨"", "smile", "", "", ""⟩).isSome = true :=
  ⟨((dual_icon_fails_fast ⟨"", "smile", "http://example.com/i.png", "", ""⟩).1
      (by decide) (by decide)).1,
   (dual_icon_fails_fast ⟨"", "smile", "", "", ""⟩).2 (Or.inr rfl)⟩

/-- C4: `reverseMergeDefault` is idempotent — whenever one application
succeeds with result `q`, applying it to `q` succeeds and returns `q`
unchanged. -/
theorem reverseMergeDefault_idempotent (p q : Payload)
    (h : reverseMergeDefault p = some q) : reverseMergeDefault q = some q := by
  obtain ⟨ch, ie, iu, un, tx⟩ := p
  by_cases hc : ch = "" <;> by_cases hu : un = "" <;>
    by_cases he : ie = "" <;> by_cases hl : iu = "" <;>
    simp_all [reverseMergeDefault, defaultIconUrl] <;>
    (subst h; simp_all [reverseMergeDefault, defaultIconUrl])

theorem reverseMergeDefault_idempotent_witness :
    reverseMergeDefault ⟨"#general", "", defaultIconUrl, "Toggl", ""⟩ =
      some ⟨"#general", "", defaultIconUrl, "Toggl", ""⟩ :=
  reverseMergeDefault_idempotent ⟨"", "", "", "", ""⟩ _ (by decide)

/-- C5: the defaults filled by `reverseMergeDefault` on a payload it
finalizes — empty channel becomes `#general` (non-empty unchanged),
empty username becomes `Toggl` (non-empty unchanged), and when both
icon fields are empty the icon URL becomes the fixed built-in image URL
while the icon emoji stays empty. -/
theorem reverseMergeDefault_fills_defaults (p q : Payload)
    (h : reverseMergeDefault p = some q) :
    (p.channel = "" → q.channel = "#general") ∧
    (p.channel ≠ "" → q.channel = p.channel) ∧
    (p.username = "" → q.username = "Toggl") ∧
    (p.username ≠ "" → q.username = p.username) ∧
    (p.iconEmoji = "" → p.iconUrl = "" →
      q.iconUrl = defaultIconUrl ∧ q.iconEmoji = "") := by
  obtain ⟨ch, ie, iu, un, tx⟩ := p
  by_cases hc : ch = "" <;> by_cases hu : un = "" <;>
    by_cases he : ie = "" <;> by_cases hl : iu = "" <;>
    simp_all [reverseMergeDefault, defaultIconUrl] <;>
    (subst h; simp_all)

theorem reverseMergeDefault_fills_defaults_witness :
    ((⟨"#general", "", defaultIconUrl, "Toggl", "hi"⟩ : Payload)).channel =
      "#general" :=
  (reverseMergeDefault_fills_defaults ⟨"", "", "", "", "hi"⟩
    ⟨"#general", "", defaultIconUrl, "Toggl", "hi"⟩ (by decide)).1 rfl

/-- C1 counterexample: the delivery endpoint returns HTTP 500, yet
`notify` does not report failure (it returns the nil error of
`client.Do`) and the dispatcher logs nothing — refuting the claim that
a non-2xx response is surfaced as a failure. -/
theorem notify_http500_no_failure :
    isFailed (notify sampleConfig sampleRender ⟨7, "task"⟩ sampleUserPayload
      (HttpOutcome.response 500)) = false ∧
    (onStart sampleRender sampleConfig ⟨7, "task"⟩
      (HttpOutcome.response 500)).1.errLogs = [] := by
  constructor <;> rfl

/-- C1 (amended): `notify` returns a failure to its caller exactly when
the outbound HTTP POST fails at the network level; a completed response
of any status — HTTP 500 included — makes `notify` return success
(Go's `client.Do` yields a nil error for any received response, and
that error is what `notify` returns). -/
theorem notify_failure_iff_network (c : Config) (render : Activity → String)
    (a : Activity) (p : Payload) (m : String) (st : Nat)
    (h : (reverseMergeDefault { p with text := render a }).isSome = true) :
    notify c render a p (HttpOutcome.netError m) = NotifyOut.failed m ∧
    deliveredStatus (notify c render a p (HttpOutcome.response st)) = some st ∧
    isFailed (notify c render a p (HttpOutcome.response st)) = false := by
  obtain ⟨q, e⟩ := Option.isSome_iff_exists.mp h
  simp [notify, e, deliveredStatus, isFailed]

theorem notify_failure_iff_network_witness :
    notify sampleConfig sampleRender ⟨7, "task"⟩ sampleUserPayload
      (HttpOutcome.netError "connection refused") =
      NotifyOut.failed "connection refused" ∧
    deliveredStatus (notify sampleConfig sampleRender ⟨7, "task"⟩
      sampleUserPayload (HttpOutcome.response 200)) = some 200 ∧
    isFailed (notify sampleConfig sampleRender ⟨7, "task"⟩ sampleUserPayload
      (HttpOutcome.response 200)) = false :=
  notify_failure_iff_network sampleConfig sampleRender ⟨7, "task"⟩
    sampleUserPayload "connection refused" 200 (by decide)

/-- C3: a start or stop event whose user id is absent from the
configured users mapping produces no notify call, no HTTP delivery and
no error log (a silent no-op); when the user id is present, `notify`
is invoked exactly once with that user's configured payload. -/
theorem dispatch_user_lookup (rs rf : Activity → String) (c : Config)
    (a : Activity) (o : HttpOutcome) :
    (lookupUsers c.users (itoa a.userId) = none →
      onStart rs c a o = (noDispatch, c) ∧ onStop rf c a o = (noDispatch, c)) ∧
    (∀ p, lookupUsers c.users (itoa a.userId) = some p →
      (onStart rs c a o).1.calls = [p] ∧ (onStop rf c a o).1.calls = [p]) := by
  constructor
  · intro h
    constructor
    · unfold onStart; rw [h]
    · unfold onStop; rw [h]
  · intro p h
    constructor
    · unfold onStart; rw [h]
      cases hn : notify c rs a p o <;> simp [hn]
    · unfold onStop; rw [h]
      cases hn : notify c rf a p o <;> simp [hn]

theorem dispatch_user_lookup_witness :
    (onStart sampleRender emptyUsersConfig ⟨7, "task"⟩ (HttpOutcome.response 200) =
      (noDispatch, emptyUsersConfig) ∧
     onStop sampleRender emptyUsersConfig ⟨7, "task"⟩ (HttpOutcome.response 200) =
      (noDispatch, emptyUsersConfig)) ∧
    (onStart sampleRender sampleConfig ⟨7, "task"⟩
      (HttpOutcome.response 200)).1.calls = [sampleUserPayload] :=
  ⟨(dispatch_user_lookup sampleRender sampleRender emptyUsersConfig ⟨7, "task"⟩
      (HttpOutcome.response 200)).1 (by decide),
   ((dispatch_user_lookup sampleRender sampleRender sampleConfig ⟨7, "task"⟩
      (HttpOutcome.response 200)).2 sampleUserPayload (by decide)).1⟩

/-- C6: the default configuration emitted by the init/generate command,
when loaded back through `loadConfig`, reproduces the interval (60),
the toggl token, the webhook URL, and the started/finished template
strings that were written out. -/
theorem generate_load_roundtrip :
    ∃ c : Config,
      (match generateConfig false with
        | Except.ok j => loadConfig j
        | Except.error _ => none) = some c ∧
      c.interval = 60 ∧
      c.togglToken = defaultConfig.togglToken ∧
      c.webhookURL = defaultConfig.webhookURL ∧
      c.templates.started = some "started {{.Description}}" ∧
      c.templates.finished = some "finished {{.Description}}" := by
  refine ⟨⟨60, "YOUR_TOGGL_TOKEN", 0, "https://hooks.slack.com/services/...",
    [("TOGGL_USER_ID", ⟨"#general", "", "", "toggl2slack", ""⟩)],
    ⟨some "started {{.Description}}", some "finished {{.Description}}"⟩⟩,
    ?_, rfl, rfl, rfl, rfl, rfl⟩
  rfl

/-- C7 counterexample: a payload every field of which is empty is
finalized successfully by `reverseMergeDefault` with an empty rendered
text, and the serialized wire message then carries no `text` key at all
(the `text` field of the Go struct has an `omitempty` tag) — refuting
the claim that `text` is always present. -/
theorem wire_omits_empty_text :
    reverseMergeDefault ⟨"", "", "", "", ""⟩ =
      some ⟨"#general", "", defaultIconUrl, "Toggl", ""⟩ ∧
    ¬ ("text" ∈ wireKeys ⟨"#general", "", defaultIconUrl, "Toggl", ""⟩) := by
  constructor <;> decide

/-- C7 (amended): for every payload finalized by `reverseMergeDefault`,
the serialized wire message always contains the keys `channel` and
`username`; `icon_emoji`, `icon_url` and `text` are present if and only
if the corresponding field is non-empty (so an empty rendered text is
omitted, like the empty icon fields); and no other keys appear. -/
theorem wire_message_keys (p q : Payload)
    (h : reverseMergeDefault p = some q) :
    "channel" ∈ wireKeys q ∧ "username" ∈ wireKeys q ∧
    ("icon_emoji" ∈ wireKeys q ↔ q.iconEmoji ≠ "") ∧
    ("icon_url" ∈ wireKeys q ↔ q.iconUrl ≠ "") ∧
    ("text" ∈ wireKeys q ↔ q.text ≠ "") ∧
    (∀ k ∈ wireKeys q, k ∈ ["channel", "icon_emoji", "icon_url", "username", "text"]) := by
  clear h
  obtain ⟨ch, ie, iu, un, tx⟩ := q
  by_cases he : ie = "" <;> by_cases hl : iu = "" <;> by_cases ht : tx = "" <;>
    simp_all [wireKeys, marshalPayloadFields]

theorem wire_message_keys_witness :
    "channel" ∈ wireKeys ⟨"#general", "", defaultIconUrl, "Toggl", "hi"⟩ :=
  (wire_message_keys ⟨"", "", "", "", "hi"⟩
    ⟨"#general", "", defaultIconUrl, "Toggl", "hi"⟩ (by decide)).1

/-- C8: the dispatch callbacks leave the configuration — in particular
the stored users mapping and its payloads — unchanged, and `notify`
works on a copy whose text field is overwritten with the fresh
rendering before the merge, so the stored payload's text field is
irrelevant to the delivery. -/
theorem notify_frame_and_fresh_text (rs rf : Activity → String) (c : Config)
    (a : Activity) (o : HttpOutcome) :
    (onStart rs c a o).2 = c ∧ (onStop rf c a o).2 = c ∧
    (∀ p s, notify c rs a { p with text := s } o = notify c rs a p o) := by
  refine ⟨?_, ?_, ?_⟩
  · unfold onStart
    cases hl : lookupUsers c.users (itoa a.userId) with
    | none => simp [hl]
    | some p =>
      cases hn : notify c rs a p o <;> simp [hn]
  · unfold onStop
    cases hl : lookupUsers c.users (itoa a.userId) with
    | none => simp [hl]
    | some p =>
      cases hn : notify c rf a p o <;> simp [hn]
  · intro p s
    obtain ⟨ch, ie, iu, un, tx⟩ := p
    rfl

/-- C9: the init/generate command writes the default configuration only
when no file exists at the target path, and fails with an error —
writing nothing — when a file already exists there. -/
theorem generateConfig_only_when_absent :
    (∃ j, generateConfig false = Except.ok j) ∧
    generateConfig true = Except.error "config.json already exists" :=
  ⟨⟨_, rfl⟩, rfl⟩

/-- C10: the users mapping is keyed by the decimal string
`strconv.Itoa(a.UserId)`: a dispatch callback invokes `notify` exactly
when that decimal string is a key of the mapping, and a key in any
other format — e.g. with a leading zero (`"01"`) or non-numeric
(`"alice"`) — is never the `itoa` image of any user id, hence never
matches any activity. -/
theorem lookup_key_is_itoa_decimal (rs : Activity → String) (c : Config)
    (a : Activity) (o : HttpOutcome) :
    ((onStart rs c a o).1.calls ≠ [] ↔
      (lookupUsers c.users (itoa a.userId)).isSome = true) ∧
    (∀ i : Int, itoa i ≠ "01") ∧
    (∀ i : Int, itoa i ≠ "alice") := by
  refine ⟨?_, itoa_ne_leading_zero, itoa_ne_alpha⟩
  unfold onStart
  cases e : lookupUsers c.users (itoa a.userId) with
  | none => simp [e, noDispatch]
  | some p =>
    cases hn : notify c rs a p o <;> simp [hn]

theorem lookup_key_is_itoa_decimal_witness :
    ((onStart sampleRender sampleConfig ⟨7, "task"⟩
        (HttpOutcome.response 200)).1.calls ≠ []) ∧
    itoa 1 ≠ "01" ∧
    ((onStart sampleRender leadingZeroConfig ⟨1, "task"⟩
        (HttpOutcome.response 200)).1.calls = []) :=
  ⟨(lookup_key_is_itoa_decimal sampleRender sampleConfig ⟨7, "task"⟩
      (HttpOutcome.response 200)).1.mpr (by decide),
   (lookup_key_is_itoa_decimal sampleRender sampleConfig ⟨7, "task"⟩
      (HttpOutcome.response 200)).2.1 1,
   by decide⟩

end Toggl2Slack
